import Mathlib

/-!
Shallow embedding of the reminder subsystem of this repository
(memgpt/functions/function_sets/reminders.py and memgpt/scheduler.py).

Modelling conventions:
- Instants are integers counting minutes in the fixed reference timezone
  (America/Sao_Paulo); `datetime.timedelta(minutes=d)` added to a datetime
  becomes `t + d`.
- The shelve database `reminders.shelve` maps the string `str(id)` to a
  record; since `str` is injective on the integer ids used as keys, the
  store is modelled as an association list `List (Nat x Reminder)` in
  insertion order, with the same single-key-per-id semantics.
- Python exceptions that escape a function are modelled with `Except`;
  a function that mutates the store and may also raise returns the
  resulting store together with the `Except` outcome, because a shelve
  write that happened before the raise is not rolled back.
- The rrule evaluator (`rrulestr(rule, dtstart=t).after(t)`) and
  `datetime.strptime` are external pure collaborators; they are passed in
  as explicit function parameters `ruleAfter : String -> Int -> Option Int`
  and `strptime : String -> Int`, so every theorem quantifies over their
  behaviour.
- Python truthiness on `Optional[str]` / `Optional[int]` arguments
  (`if recurrence_rule:` etc.) is modelled by `truthyOptStr` /
  `truthyOptInt`: `None`, the empty string and the integer `0` are falsy.
-/

namespace Reminders

/-- A persisted reminder record, as built in `create_reminder`:
`{id, agent_id, description, recurrence_rule, created_at, modified_at}`.
`created_at` and `modified_at` hold the creation instant. -/
structure Reminder where
  id : Nat
  agent_id : String
  description : String
  recurrence_rule : Option String
  created_at : Int
  modified_at : Int
deriving Repr, DecidableEq

/-- The shelve store: association list from the numeric key `str(id)`
(modelled as the id itself) to the record, in insertion order. -/
abbrev Store := List (Nat × Reminder)

/-- `db.values()`. -/
def dbValues (db : Store) : List Reminder := db.map Prod.snd

/-- `db[str(k)] = v`: overwrite the entry at key `k` if present, else append. -/
def dbSet (db : Store) (k : Nat) (v : Reminder) : Store :=
  if db.any (fun p => p.1 == k) then
    db.map (fun p => if p.1 == k then (k, v) else p)
  else
    db ++ [(k, v)]

/-- `del db[str(k)]` (and also `str(k) in db` is `dbHasKey`). -/
def dbDel (db : Store) (k : Nat) : Store := db.filter (fun p => p.1 != k)

/-- `str(k) in db`. -/
def dbHasKey (db : Store) (k : Nat) : Bool := db.any (fun p => p.1 == k)

/-- `[reminder for reminder in db.values() if reminder["agent_id"] == self.agent_state.id]`. -/
def agentReminders (db : Store) (agentId : String) : List Reminder :=
  (dbValues db).filter (fun r => r.agent_id == agentId)

/-- Exceptions that can escape the embedded operations. -/
inductive PyError where
  | valueError (msg : String)
  | jobLookupError (jobId : String)
deriving Repr, DecidableEq

/-- Python truthiness of an `Optional[str]`: `None` and `""` are falsy. -/
def truthyOptStr : Option String → Bool
  | none => false
  | some s => !(s == "")

/-- Python truthiness of an `Optional[int]`: `None` and `0` are falsy. -/
def truthyOptInt : Option Int → Bool
  | none => false
  | some n => !(n == 0)

/-- The message of the `ValueError` raised by `schedule_reminder`. -/
def scheduleErrMsg : String :=
  "Either recurrence_rule, timestamp or delay_minutes must be provided"

/-- The branch structure of `schedule_reminder` (reminders.py lines 93-104)
that computes `next_occurrence`:
`if recurrence_rule:` evaluate the rule after `current_time`;
`elif timestamp:` parse the timestamp; `elif delay_minutes:`
`current_time + timedelta(minutes=delay_minutes)`; `else:` raise
`ValueError`. `ruleAfter rule t` stands for
`rrulestr(rule, dtstart=t).after(t)` and `strptime ts` for
`datetime.strptime(ts, fmt)` in the reference timezone. -/
def schedule_reminder (ruleAfter : String → Int → Option Int)
    (strptime : String → Int) (current_time : Int)
    (recurrence_rule timestamp : Option String) (delay_minutes : Option Int) :
    Except PyError (Option Int) :=
  if truthyOptStr recurrence_rule then
    Except.ok (ruleAfter (recurrence_rule.getD "") current_time)
  else if truthyOptStr timestamp then
    Except.ok (some (strptime (timestamp.getD "")))
  else if truthyOptInt delay_minutes then
    Except.ok (some (current_time + delay_minutes.getD 0))
  else
    Except.error (PyError.valueError scheduleErrMsg)

/-- `last_id` in `create_reminder`: `max(reminder["id"] ...)` over the
agent reminders if any, else `0`. -/
def lastId (agent_reminders : List Reminder) : Nat :=
  if agent_reminders.isEmpty then 0
  else (agent_reminders.map (fun r => r.id)).foldl max 0

/-- The duplicate-description rejection message. -/
def dupMsg (description : String) : String :=
  "Reminder with description " ++ description ++ " already exists."

/-- The confirmation message returned by `create_reminder`. -/
def createdMsg (description : String) (next_occurrence : Option Int) : String :=
  "Reminder " ++ description ++ " has been added. Next occurrence: " ++
    toString next_occurrence

/-- `create_reminder` (reminders.py lines 24-136). Returns the store after
the call together with the outcome: the returned string, or the exception
that escaped. The duplicate check returns before any write; otherwise the
record `{id := last_id + 1, created_at = modified_at = current_time}` is
written under key `str(new_id)` (the write is committed when the shelve
closes), and only then `schedule_reminder` runs, whose `ValueError`
escapes `create_reminder` without undoing the write. -/
def create_reminder (ruleAfter : String → Int → Option Int)
    (strptime : String → Int) (db : Store) (agentId description : String)
    (recurrence_rule timestamp : Option String) (delay_minutes : Option Int)
    (current_time : Int) : Store × Except PyError String :=
  let agent_reminders := agentReminders db agentId
  if agent_reminders.any (fun r => r.description == description) then
    (db, Except.ok (dupMsg description))
  else
    let new_id := lastId agent_reminders + 1
    let reminder : Reminder :=
      { id := new_id, agent_id := agentId, description := description,
        recurrence_rule := recurrence_rule,
        created_at := current_time, modified_at := current_time }
    let db2 := dbSet db new_id reminder
    match schedule_reminder ruleAfter strptime current_time
        recurrence_rule timestamp delay_minutes with
    | Except.error e => (db2, Except.error e)
    | Except.ok next_occurrence =>
        (db2, Except.ok (createdMsg description next_occurrence))

/-- Effect of the fire callback `execute_reminder` (reminders.py lines
108-127) on the store, after the notification is sent: when the captured
`recurrence_rule` is truthy, `rule.after(now)` is computed; if it yields an
instant a new job is registered (reported in `rescheduled`), otherwise the
record is deleted from the store when its key is present. When the rule is
absent (or empty) the callback does nothing further. -/
structure FireEffect where
  db : Store
  rescheduled : Option Int
deriving Repr, DecidableEq

/-- The post-notification part of `execute_reminder`. -/
def execute_reminder (ruleAfter : String → Int → Option Int) (db : Store)
    (reminder_id : Nat) (recurrence_rule : Option String) (now : Int) :
    FireEffect :=
  if truthyOptStr recurrence_rule then
    match ruleAfter (recurrence_rule.getD "") now with
    | some next_occurrence => { db := db, rescheduled := some next_occurrence }
    | none =>
        { db := if dbHasKey db reminder_id then dbDel db reminder_id else db,
          rescheduled := none }
  else
    { db := db, rescheduled := none }

/-- The scheduler job table: the ids of the currently registered jobs
(apscheduler `BackgroundScheduler` from `get_scheduler`). -/
abbrev JobTable := List String

/-- Modelled from the apscheduler library used through `get_scheduler`
(scheduler.py): `BaseScheduler.remove_job(job_id)` removes the job with
that id, and raises `JobLookupError` when no such job exists (a one-shot
`date` job is removed from the table after it runs, so the id of a fired
reminder is absent). -/
def remove_job (jobs : JobTable) (jobId : String) : Except PyError JobTable :=
  if jobs.contains jobId then Except.ok (jobs.filter (fun j => !(j == jobId)))
  else Except.error (PyError.jobLookupError jobId)

/-- The job id string `f"reminder_{reminder_id}"`. -/
def jobIdOf (reminder_id : Nat) : String := "reminder_" ++ toString reminder_id

/-- `delete_reminder` (reminders.py lines 139-178). Returns the store and
job table after the call together with the outcome. The description loop
runs first, then the id loop overwrites the candidate when it finds a
match; the record is deleted from the store before
`scheduler.remove_job` is called, so a `JobLookupError` escapes after the
deletion is committed. -/
def delete_reminder (db : Store) (jobs : JobTable) (agentId : String)
    (description : Option String) (reminder_id : Option Nat) :
    Store × JobTable × Except PyError String :=
  if description.isNone && reminder_id.isNone then
    (db, jobs,
      Except.ok "Please provide either a description or an ID to delete a reminder.")
  else
    let agent_reminders := agentReminders db agentId
    let byDesc : Option Reminder :=
      match description with
      | some d => agent_reminders.find? (fun r => r.description == d)
      | none => none
    let byId : Option Reminder :=
      match reminder_id with
      | some i => agent_reminders.find? (fun r => r.id == i)
      | none => none
    let reminder_to_delete : Option Reminder :=
      match byId with
      | some r => some r
      | none => byDesc
    match reminder_to_delete with
    | none => (db, jobs, Except.ok "Reminder not found.")
    | some r =>
        let db2 := dbDel db r.id
        match remove_job jobs (jobIdOf r.id) with
        | Except.error e => (db2, jobs, Except.error e)
        | Except.ok jobs2 =>
            (db2, jobs2,
              Except.ok ("Reminder " ++ r.description ++ " has been deleted."))

/-- The dynamically-typed `page` argument of `list_reminders`. -/
inductive PyVal where
  | vnone
  | vint (n : Int)
  | vstr (s : String)
deriving Repr, DecidableEq

/-- Model of Python `str.strip()`: remove whitespace at both ends. -/
def pyStrip (s : String) : String :=
  ⟨((s.data.dropWhile Char.isWhitespace).reverse.dropWhile
      Char.isWhitespace).reverse⟩

/-- Model of Python `str.lower()` on ASCII data. -/
def pyLower (s : String) : String :=
  ⟨s.data.map Char.toLower⟩

/-- The numeric value of a decimal digit character, if it is one. -/
def digitVal? (c : Char) : Option Nat :=
  if c.isDigit then some (c.toNat - 48) else none

/-- Decimal value of a non-empty all-digit character list. -/
def digitsNat? (l : List Char) : Option Nat :=
  match l with
  | [] => none
  | _ =>
      l.foldl
        (fun acc c =>
          match acc, digitVal? c with
          | some n, some d => some (n * 10 + d)
          | _, _ => none)
        (some 0)

/-- Model of Python `int(str)`: strip whitespace, optional leading minus,
then decimal digits; `none` when the string is not an integer literal. -/
def pyInt? (s : String) : Option Int :=
  match (pyStrip s).data with
  | [] => none
  | c :: rest =>
      if c == '-' then (digitsNat? rest).map (fun n => -(n : Int))
      else (digitsNat? (c :: rest)).map (fun n => (n : Int))

/-- Normalisation of `page` (reminders.py lines 191-196): `None` and the
string `"none"` (case/space insensitive) become `0`; then `int(page)`,
raising `ValueError` when a string does not parse as an integer. -/
def normalizePage (page : PyVal) : Except PyError Int :=
  let page0 : PyVal :=
    match page with
    | PyVal.vnone => PyVal.vint 0
    | PyVal.vstr s =>
        if pyStrip (pyLower s) == "none" then PyVal.vint 0 else PyVal.vstr s
    | v => v
  match page0 with
  | PyVal.vint n => Except.ok n
  | PyVal.vstr s =>
      match pyInt? s with
      | some n => Except.ok n
      | none => Except.error (PyError.valueError "page argument must be an integer")
  | PyVal.vnone => Except.error (PyError.valueError "page argument must be an integer")

/-- Python list slicing index normalisation for `lst[start:end]`:
a negative index counts from the end, and both are clamped to `[0, len]`. -/
def pySliceIdx (len : Nat) (i : Int) : Nat :=
  if i < 0 then min ((len : Int) + i).toNat len else min i.toNat len

/-- Python `lst[s:e]`. -/
def pySlice {α : Type} (l : List α) (s e : Int) : List α :=
  let a := pySliceIdx l.length s
  let b := pySliceIdx l.length e
  (l.drop a).take (b - a)

/-- The pagination core of `list_reminders` (reminders.py lines 198-209):
`count = 10`, `num_pages = math.ceil(total / count)` (for naturals,
`(total + 9) / 10`), `paginated = agent_reminders[page*10 : page*10+10]`.
Returns `(paginated, total, num_pages)`. -/
def paginate (agent_reminders : List Reminder) (page : Int) :
    List Reminder × Nat × Nat :=
  let total := agent_reminders.length
  let num_pages := (total + 9) / 10
  let start := page * 10
  (pySlice agent_reminders start (start + 10), total, num_pages)

/-- One formatted line of `list_reminders`. -/
def formatReminder (r : Reminder) : String :=
  "ID: " ++ toString r.id ++ ", Description: " ++ r.description ++
    ", Recurrence Rule: " ++ toString r.recurrence_rule ++
    ", Created At: " ++ toString r.created_at ++
    ", Modified At: " ++ toString r.modified_at

/-- The body of `list_reminders` after page normalisation (reminders.py
lines 198-217): nothing in it raises; both branches return a string. -/
def listBody (db : Store) (agentId : String) (p : Int) : String :=
  let agent_reminders := agentReminders db agentId
  let res := paginate agent_reminders p
  if res.2.1 == 0 then "No reminders found."
  else
    let pref := "Showing " ++ toString res.1.length ++ " of " ++
      toString res.2.1 ++ " reminders (page " ++ toString (p + 1) ++ "/" ++
      toString res.2.2 ++ "):"
    pref ++ "\n" ++ String.intercalate "\n" (res.1.map formatReminder)

/-- `list_reminders` (reminders.py lines 181-217). -/
def list_reminders (db : Store) (agentId : String) (page : PyVal) :
    Except PyError String :=
  match normalizePage page with
  | Except.error e => Except.error e
  | Except.ok p => Except.ok (listBody db agentId p)

/-- A concrete record used in witnesses and counterexamples: the record
`create_reminder` builds at `current_time = 0` with no recurrence rule. -/
def sampleRem (i : Nat) (a desc : String) : Reminder :=
  { id := i, agent_id := a, description := desc, recurrence_rule := none,
    created_at := 0, modified_at := 0 }

/-- A store holding `n` reminders (ids `1..n`) for agent `"a"`. -/
def manyRems (n : Nat) : Store :=
  (List.range n).map (fun i => (i + 1, sampleRem (i + 1) "a" (toString (i + 1))))

/-! ## Helper lemmas -/

/-- `lastId` computes the fold of `max` over the ids (with default `0`),
for empty and non-empty lists alike. -/
theorem lastId_eq_foldl (rs : List Reminder) :
    lastId rs = (rs.map (fun r => r.id)).foldl max 0 := by
  cases rs <;> simp [lastId]

/-- Length of a Python slice in terms of the normalised indices. -/
theorem pySlice_length {α : Type} (l : List α) (s e : Int) :
    (pySlice l s e).length =
      min (pySliceIdx l.length e - pySliceIdx l.length s)
          (l.length - pySliceIdx l.length s) := by
  simp [pySlice]

/-- Length of the page slice produced by `paginate`. -/
theorem paginate_length (rs : List Reminder) (p : Int) :
    (paginate rs p).1.length =
      min (pySliceIdx rs.length (p * 10 + 10) - pySliceIdx rs.length (p * 10))
          (rs.length - pySliceIdx rs.length (p * 10)) := by
  simp [paginate, pySlice_length]

/-- The `total` component returned by `paginate`. -/
theorem paginate_total (rs : List Reminder) (p : Int) :
    (paginate rs p).2.1 = rs.length :=
  rfl

/-- The `num_pages` component returned by `paginate`. -/
theorem paginate_numPages (rs : List Reminder) (p : Int) :
    (paginate rs p).2.2 = (rs.length + 9) / 10 :=
  rfl

/-- An integer `page` argument normalises to itself. -/
theorem normalizePage_vint (n : Int) : normalizePage (PyVal.vint n) = Except.ok n :=
  rfl

/-- `list_reminders` never raises once its `page` argument is an integer:
both the empty-store branch and the listing branch return a string. -/
theorem list_reminders_vint_ok (db : Store) (a : String) (p : Int) :
    ∃ s, list_reminders db a (PyVal.vint p) = Except.ok s :=
  ⟨listBody db a p, rfl⟩

/-! ## Claim theorems -/

/-- C10 (confirmed): `delay_minutes = 0` with no recurrence rule and no
timestamp falls through the truthiness tests into the no-input failure
branch of `schedule_reminder` (it is not scheduled at
`current_time + 0`), and an empty-string recurrence rule is treated
exactly as an absent one. -/
theorem falsy_schedule_inputs (ruleAfter : String → Int → Option Int)
    (strptime : String → Int) (t : Int) (ts : Option String) (d : Option Int) :
    schedule_reminder ruleAfter strptime t none none (some 0)
      = Except.error (PyError.valueError scheduleErrMsg) ∧
    schedule_reminder ruleAfter strptime t (some "") ts d
      = schedule_reminder ruleAfter strptime t none ts d := by
  constructor
  · rfl
  · simp [schedule_reminder, truthyOptStr]

/-- C2 counterexample: with both a recurrence rule and a timestamp
supplied, `schedule_reminder` evaluates the rule (here yielding `100`),
not the parsed timestamp (`200`), so the claimed precedence
timestamp-over-rule is false. -/
theorem schedule_rule_preempts_timestamp_cex :
    schedule_reminder (fun _ _ => some 100) (fun _ => 200) 0
        (some "FREQ=DAILY;BYHOUR=21;BYMINUTE=30;BYSECOND=0")
        (some "2024-06-01 12:00:00") none = Except.ok (some 100) ∧
    (Except.ok (some 100) : Except PyError (Option Int)) ≠ Except.ok (some 200) := by
  constructor
  · rfl
  · simp

/-- C2 (corrected): the actual precedence in `schedule_reminder` is
recurrence rule over timestamp over delay: a truthy rule is always
evaluated (even when a timestamp or delay is also supplied); the
timestamp is parsed and used only when the rule is absent or empty; the
delay gives `current_time + delay_minutes` only when both are falsy; and
when all three are falsy a `ValueError` is raised. -/
theorem schedule_reminder_precedence (ruleAfter : String → Int → Option Int)
    (strptime : String → Int) (t : Int) (rule ts : Option String)
    (d : Option Int) :
    (truthyOptStr rule = true →
      schedule_reminder ruleAfter strptime t rule ts d
        = Except.ok (ruleAfter (rule.getD "") t)) ∧
    (truthyOptStr rule = false → truthyOptStr ts = true →
      schedule_reminder ruleAfter strptime t rule ts d
        = Except.ok (some (strptime (ts.getD "")))) ∧
    (truthyOptStr rule = false → truthyOptStr ts = false →
        truthyOptInt d = true →
      schedule_reminder ruleAfter strptime t rule ts d
        = Except.ok (some (t + d.getD 0))) ∧
    (truthyOptStr rule = false → truthyOptStr ts = false →
        truthyOptInt d = false →
      schedule_reminder ruleAfter strptime t rule ts d
        = Except.error (PyError.valueError scheduleErrMsg)) := by
  refine ⟨?_, ?_, ?_, ?_⟩
  · intro h1
    simp [schedule_reminder, h1]
  · intro h1 h2
    simp [schedule_reminder, h1, h2]
  · intro h1 h2 h3
    simp [schedule_reminder, h1, h2, h3]
  · intro h1 h2 h3
    simp [schedule_reminder, h1, h2, h3]

/-- Witness for `schedule_reminder_precedence` at concrete inputs, one per
branch. -/
theorem schedule_reminder_precedence_witness :
    schedule_reminder (fun _ _ => some 7) (fun _ => 9) 3
        (some "FREQ=DAILY") (some "x") (some 5) = Except.ok (some 7) ∧
    schedule_reminder (fun _ _ => some 7) (fun _ => 9) 3
        none (some "x") (some 5) = Except.ok (some 9) ∧
    schedule_reminder (fun _ _ => some 7) (fun _ => 9) 3
        none none (some 5) = Except.ok (some 8) ∧
    schedule_reminder (fun _ _ => some 7) (fun _ => 9) 3
        none none none = Except.error (PyError.valueError scheduleErrMsg) :=
  ⟨(schedule_reminder_precedence (fun _ _ => some 7) (fun _ => 9) 3
      (some "FREQ=DAILY") (some "x") (some 5)).1 (by decide),
   (schedule_reminder_precedence (fun _ _ => some 7) (fun _ => 9) 3
      none (some "x") (some 5)).2.1 (by decide) (by decide),
   (schedule_reminder_precedence (fun _ _ => some 7) (fun _ => 9) 3
      none none (some 5)).2.2.1 (by decide) (by decide) (by decide),
   (schedule_reminder_precedence (fun _ _ => some 7) (fun _ => 9) 3
      none none none).2.2.2 (by decide) (by decide) (by decide)⟩

/-- C7 (confirmed): a create with a description an existing reminder of the
same agent already carries returns the duplicate-rejection string with the
store unchanged (the check returns before any write, so no record is
written and no id is consumed), and the number of records with that
description for that agent stays exactly one if it was one. -/
theorem duplicate_create_rejected_store_unchanged
    (ruleAfter : String → Int → Option Int) (strptime : String → Int)
    (db : Store) (a desc : String) (rule ts : Option String)
    (dm : Option Int) (t : Int)
    (h : ∃ r ∈ agentReminders db a, r.description = desc) :
    create_reminder ruleAfter strptime db a desc rule ts dm t
      = (db, Except.ok (dupMsg desc)) ∧
    ((agentReminders db a).countP (fun r => r.description == desc) = 1 →
      (agentReminders
          (create_reminder ruleAfter strptime db a desc rule ts dm t).1 a).countP
        (fun r => r.description == desc) = 1) := by
  have hany : (agentReminders db a).any (fun r => r.description == desc) = true := by
    obtain ⟨r, hr, hd⟩ := h
    exact List.any_eq_true.mpr ⟨r, hr, by simp [hd]⟩
  have heq : create_reminder ruleAfter strptime db a desc rule ts dm t
      = (db, Except.ok (dupMsg desc)) := by
    simp [create_reminder, hany]
  exact ⟨heq, fun h1 => by rw [heq]; exact h1⟩

/-- Witness for `duplicate_create_rejected_store_unchanged` on a concrete
one-record store. -/
theorem duplicate_create_rejected_witness :
    create_reminder (fun _ _ => none) (fun _ => 0)
        [(1, sampleRem 1 "a" "d")] "a" "d" none none none 0
      = ([(1, sampleRem 1 "a" "d")], Except.ok (dupMsg "d")) :=
  (duplicate_create_rejected_store_unchanged (fun _ _ => none) (fun _ => 0)
    [(1, sampleRem 1 "a" "d")] "a" "d" none none none 0 (by decide)).1

/-- C1 counterexample: after the single fire of a reminder created with no
recurrence rule, its record is still in the store — the fire callback did
not remove it, so the claim that it is retired immediately is false. -/
theorem fire_no_rule_record_remains_cex :
    (execute_reminder (fun _ _ => none)
        [(1, sampleRem 1 "a" "d")] 1 none 100).db = [(1, sampleRem 1 "a" "d")] ∧
    dbHasKey (execute_reminder (fun _ _ => none)
        [(1, sampleRem 1 "a" "d")] 1 none 100).db 1 = true := by
  constructor
  · rfl
  · rfl

/-- C1 (corrected): the fire callback of a reminder with no recurrence
rule (or an empty one) leaves the store unchanged and schedules nothing —
the record is NOT removed after its single fire; only a fire of a
rule-bearing reminder whose rule yields no further occurrence deletes the
record. -/
theorem fire_without_rule_keeps_record
    (ruleAfter : String → Int → Option Int) (db : Store) (i : Nat)
    (now : Int) (s : String)
    (hex : ruleAfter s now = none) (hs : ¬ s = "")
    (hk : dbHasKey db i = true) :
    execute_reminder ruleAfter db i none now
      = { db := db, rescheduled := none } ∧
    (execute_reminder ruleAfter db i (some s) now).db = dbDel db i := by
  constructor
  · rfl
  · simp [execute_reminder, truthyOptStr, hs, hex, hk]

/-- Witness for `fire_without_rule_keeps_record` on a one-record store and
an exhausted rule. -/
theorem fire_without_rule_keeps_record_witness :
    execute_reminder (fun _ _ => none) [(1, sampleRem 1 "a" "d")] 1 none 0
      = { db := [(1, sampleRem 1 "a" "d")], rescheduled := none } ∧
    (execute_reminder (fun _ _ => none)
        [(1, sampleRem 1 "a" "d")] 1 (some "R") 0).db
      = dbDel [(1, sampleRem 1 "a" "d")] 1 :=
  fire_without_rule_keeps_record (fun _ _ => none)
    [(1, sampleRem 1 "a" "d")] 1 0 "R" rfl (by decide) (by decide)

/-- C3: the store is keyed by `str(id)` alone, not by `(agent_id, id)`.
On the failing input — agent A creates a reminder (id 1), then agent B,
who has no reminders, creates one (also id 1) — B's write lands on the
same key `"1"` and overwrites A's record, which vanishes from the store. -/
theorem create_overwrites_other_agent_record :
    (create_reminder (fun _ _ => none) (fun _ => 0)
        (create_reminder (fun _ _ => none) (fun _ => 0)
          [] "A" "x" none none (some 5) 0).1
        "B" "y" none none (some 5) 0).1
      = [(1, sampleRem 1 "B" "y")] ∧
    agentReminders
      (create_reminder (fun _ _ => none) (fun _ => 0)
        (create_reminder (fun _ _ => none) (fun _ => 0)
          [] "A" "x" none none (some 5) 0).1
        "B" "y" none none (some 5) 0).1 "A" = [] := by
  constructor
  · rfl
  · rfl

/-- C4 counterexample: a create with none of the three scheduling inputs
raises, yet the store is NOT left unchanged — the new record was persisted
before `schedule_reminder` ran, so atomicity fails. -/
theorem create_no_schedule_changes_store_cex :
    create_reminder (fun _ _ => none) (fun _ => 0) [] "a" "d" none none none 0
      = ([(1, sampleRem 1 "a" "d")],
         Except.error (PyError.valueError scheduleErrMsg)) ∧
    ([(1, sampleRem 1 "a" "d")] : Store) ≠ [] := by
  constructor
  · rfl
  · simp

/-- C4 (corrected): with none of `recurrence_rule`, `timestamp`,
`delay_minutes` supplied (and no duplicate description), creation fails
with a `ValueError` — but only after the record has been persisted: the
store returned by the call contains the newly written record. -/
theorem create_no_schedule_raises_after_persist
    (ruleAfter : String → Int → Option Int) (strptime : String → Int)
    (db : Store) (a desc : String) (t : Int)
    (hdup : ∀ r ∈ agentReminders db a, ¬ r.description = desc) :
    create_reminder ruleAfter strptime db a desc none none none t
      = (dbSet db (lastId (agentReminders db a) + 1)
           { id := lastId (agentReminders db a) + 1, agent_id := a,
             description := desc, recurrence_rule := none,
             created_at := t, modified_at := t },
         Except.error (PyError.valueError scheduleErrMsg)) := by
  have hany : (agentReminders db a).any (fun r => r.description == desc)
      = false := by
    rw [List.any_eq_false]
    intro r hr
    simpa using hdup r hr
  simp [create_reminder, hany, schedule_reminder, truthyOptStr, truthyOptInt]

/-- Witness for `create_no_schedule_raises_after_persist` on the empty
store. -/
theorem create_no_schedule_raises_witness :
    create_reminder (fun _ _ => none) (fun _ => 1) [] "b" "w" none none none 4
      = ([(1, { id := 1, agent_id := "b", description := "w",
                recurrence_rule := none, created_at := 4, modified_at := 4 })],
         Except.error (PyError.valueError scheduleErrMsg)) :=
  create_no_schedule_raises_after_persist (fun _ _ => none) (fun _ => 1)
    [] "b" "w" 4 (by decide)

/-- C5 counterexample: two public calls whose validation condition raises
a `ValueError` past the operation boundary instead of returning a string:
`create_reminder` with no scheduling input, and `list_reminders` with a
non-integer page string. -/
theorem validation_error_escapes_cex :
    (create_reminder (fun _ _ => none) (fun _ => 0)
        [] "c" "e" none none none 0).2
      = Except.error (PyError.valueError scheduleErrMsg) ∧
    list_reminders [] "c" (PyVal.vstr "abc")
      = Except.error (PyError.valueError "page argument must be an integer") := by
  constructor
  · rfl
  · rfl

/-- C5 (corrected): `delete_reminder` does turn its validation and
not-found conditions into user-facing strings, and the duplicate check in
`create_reminder` returns a string — but the missing-schedule validation
in `create_reminder` and the page parsing in `list_reminders` raise
`ValueError` past the public boundary (see the counterexample). -/
theorem delete_and_duplicate_return_strings
    (ruleAfter : String → Int → Option Int) (strptime : String → Int)
    (db : Store) (jobs : JobTable) (a d1 d2 : String)
    (rule ts : Option String) (dm : Option Int) (t : Int)
    (hnf : (agentReminders db a).find? (fun r => r.description == d1) = none)
    (hdup : ∃ r ∈ agentReminders db a, r.description = d2) :
    delete_reminder db jobs a none none
      = (db, jobs,
         Except.ok "Please provide either a description or an ID to delete a reminder.") ∧
    delete_reminder db jobs a (some d1) none
      = (db, jobs, Except.ok "Reminder not found.") ∧
    (create_reminder ruleAfter strptime db a d2 rule ts dm t).2
      = Except.ok (dupMsg d2) := by
  refine ⟨rfl, ?_, ?_⟩
  · simp [delete_reminder, hnf]
  · have hany : (agentReminders db a).any (fun r => r.description == d2)
        = true := by
      obtain ⟨r, hr, hd⟩ := hdup
      exact List.any_eq_true.mpr ⟨r, hr, by simp [hd]⟩
    simp [create_reminder, hany]

/-- Witness for `delete_and_duplicate_return_strings` on a one-record
store. -/
theorem delete_and_duplicate_return_strings_witness :
    delete_reminder [(1, sampleRem 1 "a" "d")] [] "a" none none
      = ([(1, sampleRem 1 "a" "d")], [],
         Except.ok "Please provide either a description or an ID to delete a reminder.") ∧
    delete_reminder [(1, sampleRem 1 "a" "d")] [] "a" (some "q") none
      = ([(1, sampleRem 1 "a" "d")], [], Except.ok "Reminder not found.") ∧
    (create_reminder (fun _ _ => none) (fun _ => 0)
        [(1, sampleRem 1 "a" "d")] "a" "d" none none none 0).2
      = Except.ok (dupMsg "d") :=
  delete_and_duplicate_return_strings (fun _ _ => none) (fun _ => 0)
    [(1, sampleRem 1 "a" "d")] [] "a" "q" "d" none none none 0
    (by decide) (by decide)

/-- C6 counterexample: ids ARE reused after deletion. Agent `a` creates
`d1` (id 1) and `d2` (id 2), deletes id 2, and the next create (`d3`)
receives id 2 again — the id of the deleted reminder. -/
theorem reminder_id_reused_after_delete_cex :
    (create_reminder (fun _ _ => none) (fun _ => 0)
        [] "a" "d1" none none (some 5) 0).1
      = [(1, sampleRem 1 "a" "d1")] ∧
    (create_reminder (fun _ _ => none) (fun _ => 0)
        [(1, sampleRem 1 "a" "d1")] "a" "d2" none none (some 5) 0).1
      = [(1, sampleRem 1 "a" "d1"), (2, sampleRem 2 "a" "d2")] ∧
    (delete_reminder [(1, sampleRem 1 "a" "d1"), (2, sampleRem 2 "a" "d2")]
        [jobIdOf 2] "a" none (some 2)).1
      = [(1, sampleRem 1 "a" "d1")] ∧
    (create_reminder (fun _ _ => none) (fun _ => 0)
        [(1, sampleRem 1 "a" "d1")] "a" "d3" none none (some 5) 0).1
      = [(1, sampleRem 1 "a" "d1"), (2, sampleRem 2 "a" "d3")] := by
  refine ⟨rfl, rfl, rfl, rfl⟩

/-- C6 (corrected): every valid creation assigns
`id = max(existing ids for the agent, default 0) + 1` and persists the
record with `created_at = modified_at = now` — but ids CAN be reused after
a deletion that removes the current maximum (see the counterexample). -/
theorem create_id_max_plus_one
    (ruleAfter : String → Int → Option Int) (strptime : String → Int)
    (db : Store) (a desc : String) (rule ts : Option String)
    (dm : Option Int) (t : Int)
    (hdup : ∀ r ∈ agentReminders db a, ¬ r.description = desc) :
    (create_reminder ruleAfter strptime db a desc rule ts dm t).1
      = dbSet db (((agentReminders db a).map (fun r => r.id)).foldl max 0 + 1)
          { id := ((agentReminders db a).map (fun r => r.id)).foldl max 0 + 1,
            agent_id := a, description := desc, recurrence_rule := rule,
            created_at := t, modified_at := t } := by
  have hany : (agentReminders db a).any (fun r => r.description == desc)
      = false := by
    rw [List.any_eq_false]
    intro r hr
    simpa using hdup r hr
  rw [← lastId_eq_foldl]
  cases hs : schedule_reminder ruleAfter strptime t rule ts dm with
  | error e => simp [create_reminder, hany, hs]
  | ok v => simp [create_reminder, hany, hs]

/-- Witness for `create_id_max_plus_one`: with one existing reminder of
id 1, the next create receives id 2 with equal creation timestamps. -/
theorem create_id_max_plus_one_witness :
    (create_reminder (fun _ _ => none) (fun _ => 0)
        [(1, sampleRem 1 "a" "d1")] "a" "z" none none (some 5) 0).1
      = dbSet [(1, sampleRem 1 "a" "d1")] 2 (sampleRem 2 "a" "z") :=
  create_id_max_plus_one (fun _ _ => none) (fun _ => 0)
    [(1, sampleRem 1 "a" "d1")] "a" "z" none none (some 5) 0 (by decide)

/-- C8 (confirmed): with page size 10, `num_pages` is the ceiling of
`total / 10` (characterised by the two inequalities in the last conjunct);
for an agent with 25 reminders pages 0, 1, 2 hold 10, 10, 5 items,
page 3 — and any page at least 3 — yields an empty slice, and
`list_reminders` still returns a string (never an error) for every
integer page. -/
theorem list_reminders_pagination (db : Store) (a : String)
    (h : (agentReminders db a).length = 25) :
    (paginate (agentReminders db a) 0).2.2 = 3 ∧
    (paginate (agentReminders db a) 0).1.length = 10 ∧
    (paginate (agentReminders db a) 1).1.length = 10 ∧
    (paginate (agentReminders db a) 2).1.length = 5 ∧
    (paginate (agentReminders db a) 3).1.length = 0 ∧
    (∀ p : Int, 3 ≤ p → (paginate (agentReminders db a) p).1.length = 0) ∧
    (∀ p : Int, ∃ s, list_reminders db a (PyVal.vint p) = Except.ok s) ∧
    (∀ rs : List Reminder,
      rs.length ≤ 10 * (paginate rs 0).2.2 ∧
      10 * (paginate rs 0).2.2 < rs.length + 10) := by
  refine ⟨?_, ?_, ?_, ?_, ?_, ?_, ?_, ?_⟩
  · simp [paginate_numPages, h]
  · rw [paginate_length, h]; decide
  · rw [paginate_length, h]; decide
  · rw [paginate_length, h]; decide
  · rw [paginate_length, h]; decide
  · intro p hp
    rw [paginate_length, h]
    have h1 : ¬ (p * 10 < 0) := by omega
    have h2 : ¬ (p * 10 + 10 < 0) := by omega
    simp only [pySliceIdx, if_neg h1, if_neg h2]
    omega
  · intro p
    exact list_reminders_vint_ok db a p
  · intro rs
    rw [paginate_numPages]
    omega

/-- Witness for `list_reminders_pagination` on a concrete store of 25
reminders. -/
theorem list_reminders_pagination_witness :
    (agentReminders (manyRems 25) "a").length = 25 ∧
    (paginate (agentReminders (manyRems 25) "a") 0).2.2 = 3 ∧
    (paginate (agentReminders (manyRems 25) "a") 2).1.length = 5 ∧
    (paginate (agentReminders (manyRems 25) "a") 3).1.length = 0 :=
  ⟨by decide,
   (list_reminders_pagination (manyRems 25) "a" (by decide)).1,
   (list_reminders_pagination (manyRems 25) "a" (by decide)).2.2.2.1,
   (list_reminders_pagination (manyRems 25) "a" (by decide)).2.2.2.2.1⟩

/-- C9: on the failing input — the record of a fired one-shot reminder is
still in the store but its `date` job is gone from the scheduler —
`delete_reminder` removes the record and then `remove_job` raises
`JobLookupError`, which escapes instead of the confirmation string. -/
theorem delete_missing_timer_raises :
    delete_reminder [(1, sampleRem 1 "a" "d")] [] "a" (some "d") none
      = ([], [], Except.error (PyError.jobLookupError "reminder_1")) := by
  rfl

end Reminders
